import Mathlib

/-!
Verification development for the govd-style Telegram media bot
(extractor routing and per-chat configuration resolution engine).

The definitions below are a shallow embedding of the Python source:
- app/extractors/registry.py  (Extractor, EXTRACTORS, match_extractor)
- app/bot/handlers.py         (whitelist gate, url_handler resolution loop,
                               cb_album_set, error-id hashing, inline_handler)
- app/db/queries.py           (settings upsert, disabled-extractor set ops,
                               log_error)
- app/extractors/downloader.py (_download_sync entry collection, download)

Regex patterns are embedded as an executable matcher for the exact regex
subset used in registry.py (literals, case-insensitive via re.IGNORECASE,
optional groups, two-way alternation, the dot class, the non-space class,
Kleene star), with Python re.match prefix-matching semantics.
-/

set_option maxRecDepth 100000

namespace Govd

/-- Regular-expression subset used by registry.py and URL_RE in handlers.py.
chr matches one literal character case-insensitively (re.IGNORECASE);
dot is the Python class . (any character except newline);
nonspace is the Python class \S. -/
inductive Re where
  | fail : Re
  | eps : Re
  | chr : Char → Re
  | dot : Re
  | nonspace : Re
  | seq : Re → Re → Re
  | alt : Re → Re → Re
  | star : Re → Re
  | opt : Re → Re
deriving DecidableEq

/-- Python whitespace characters recognized by the \s class (ASCII part). -/
def isPySpace (c : Char) : Bool :=
  c == ' ' || c == '\t' || c == '\n' || c == '\r' || c == '\x0b' || c == '\x0c'

/-- Does the regex accept the empty string? -/
def nullable : Re → Bool
  | Re.fail => false
  | Re.eps => true
  | Re.chr _ => false
  | Re.dot => false
  | Re.nonspace => false
  | Re.seq a b => nullable a && nullable b
  | Re.alt a b => nullable a || nullable b
  | Re.star _ => true
  | Re.opt _ => true

/-- Brzozowski derivative with respect to one input character
(case-insensitive on literals, matching re.IGNORECASE). -/
def deriv : Re → Char → Re
  | Re.fail, _ => Re.fail
  | Re.eps, _ => Re.fail
  | Re.chr a, c => if a.toLower == c.toLower then Re.eps else Re.fail
  | Re.dot, c => if c == '\n' then Re.fail else Re.eps
  | Re.nonspace, c => if isPySpace c then Re.fail else Re.eps
  | Re.seq a b, c =>
      if nullable a then Re.alt (Re.seq (deriv a c) b) (deriv b c)
      else Re.seq (deriv a c) b
  | Re.alt a b, c => Re.alt (deriv a c) (deriv b c)
  | Re.star a, c => Re.seq (deriv a c) (Re.star a)
  | Re.opt a, c => deriv a c

/-- Does some prefix of the character list match the regex?
This is pattern.match(s) truthiness in Python (anchored at the start,
not required to consume the whole string). -/
def rmatchL : Re → List Char → Bool
  | r, [] => nullable r
  | r, c :: cs => nullable r || rmatchL (deriv r c) cs

/-- pattern.match(url) truthiness for a string. -/
def rmatch (r : Re) (s : String) : Bool :=
  rmatchL r s.toList

/-- A sequence of literal characters. -/
def lit (s : String) : Re :=
  s.toList.foldr (fun c r => Re.seq (Re.chr c) r) Re.eps

/-- Concatenation of a list of regexes. -/
def rcat (rs : List Re) : Re :=
  rs.foldr Re.seq Re.eps

/-- ExtractorDescriptor from registry.py (dataclass Extractor). -/
structure Extractor where
  id : String
  display_name : String
  hosts : List String
  url_pattern : Re
  hidden : Bool
  redirect : Bool
deriving DecidableEq

/-- https?://(www\.)?tiktok\.com/.* -/
def pat_tiktok : Re :=
  rcat [lit "http", Re.opt (lit "s"), lit "://", Re.opt (lit "www."),
        lit "tiktok.com/", Re.star Re.dot]

/-- https?://vm\.tiktok\.com/.* -/
def pat_tiktok_vm : Re :=
  rcat [lit "http", Re.opt (lit "s"), lit "://", lit "vm.tiktok.com/",
        Re.star Re.dot]

/-- https?://(www\.)?soundcloud\.com/.* -/
def pat_soundcloud : Re :=
  rcat [lit "http", Re.opt (lit "s"), lit "://", Re.opt (lit "www."),
        lit "soundcloud.com/", Re.star Re.dot]

/-- https?://on\.soundcloud\.com/.* -/
def pat_soundcloud_short : Re :=
  rcat [lit "http", Re.opt (lit "s"), lit "://", lit "on.soundcloud.com/",
        Re.star Re.dot]

/-- https?://(www\.)?(x|twitter)\.com/.* -/
def pat_twitter : Re :=
  rcat [lit "http", Re.opt (lit "s"), lit "://", Re.opt (lit "www."),
        Re.alt (lit "x") (lit "twitter"), lit ".com/", Re.star Re.dot]

/-- https?://t\.co/.* -/
def pat_twitter_short : Re :=
  rcat [lit "http", Re.opt (lit "s"), lit "://", lit "t.co/", Re.star Re.dot]

/-- https?://(www\.)?instagram\.com/.* -/
def pat_instagram : Re :=
  rcat [lit "http", Re.opt (lit "s"), lit "://", Re.opt (lit "www."),
        lit "instagram.com/", Re.star Re.dot]

/-- https?://(www\.)?instagram\.com/stories/.* -/
def pat_instagram_stories : Re :=
  rcat [lit "http", Re.opt (lit "s"), lit "://", Re.opt (lit "www."),
        lit "instagram.com/stories/", Re.star Re.dot]

/-- https?://(www\.)?instagram\.com/share/.* -/
def pat_instagram_share : Re :=
  rcat [lit "http", Re.opt (lit "s"), lit "://", Re.opt (lit "www."),
        lit "instagram.com/share/", Re.star Re.dot]

/-- https?://(www\.)?9gag\.com/.* -/
def pat_ninegag : Re :=
  rcat [lit "http", Re.opt (lit "s"), lit "://", Re.opt (lit "www."),
        lit "9gag.com/", Re.star Re.dot]

/-- https?://(www\.)?(youtube\.com|youtu\.be)/.* -/
def pat_youtube : Re :=
  rcat [lit "http", Re.opt (lit "s"), lit "://", Re.opt (lit "www."),
        Re.alt (lit "youtube.com") (lit "youtu.be"), lit "/", Re.star Re.dot]

/-- https?://(www\.)?pinterest\.com/.* -/
def pat_pinterest : Re :=
  rcat [lit "http", Re.opt (lit "s"), lit "://", Re.opt (lit "www."),
        lit "pinterest.com/", Re.star Re.dot]

/-- https?://pin\.it/.* -/
def pat_pinterest_short : Re :=
  rcat [lit "http", Re.opt (lit "s"), lit "://", lit "pin.it/", Re.star Re.dot]

/-- https?://(www\.)?reddit\.com/.* -/
def pat_reddit : Re :=
  rcat [lit "http", Re.opt (lit "s"), lit "://", Re.opt (lit "www."),
        lit "reddit.com/", Re.star Re.dot]

/-- https?://redd\.it/.* -/
def pat_reddit_short : Re :=
  rcat [lit "http", Re.opt (lit "s"), lit "://", lit "redd.it/", Re.star Re.dot]

/-- https?://(www\.)?threads\.net/.* -/
def pat_threads : Re :=
  rcat [lit "http", Re.opt (lit "s"), lit "://", Re.opt (lit "www."),
        lit "threads.net/", Re.star Re.dot]

def ex_tiktok : Extractor :=
  ⟨"tiktok", "TikTok", ["tiktok.com"], pat_tiktok, false, false⟩

def ex_tiktok_vm : Extractor :=
  ⟨"tiktok_vm", "TikTok (vm)", ["vm.tiktok.com"], pat_tiktok_vm, true, true⟩

def ex_soundcloud : Extractor :=
  ⟨"soundcloud", "SoundCloud", ["soundcloud.com"], pat_soundcloud, false, false⟩

def ex_soundcloud_short : Extractor :=
  ⟨"soundcloud_short", "SoundCloud (on\\.soundcloud)", ["on.soundcloud.com"],
   pat_soundcloud_short, true, true⟩

def ex_twitter : Extractor :=
  ⟨"twitter", "X / Twitter", ["x.com", "twitter.com"], pat_twitter, false, false⟩

def ex_twitter_short : Extractor :=
  ⟨"twitter_short", "t\\.co", ["t.co"], pat_twitter_short, true, true⟩

def ex_instagram : Extractor :=
  ⟨"instagram", "Instagram", ["instagram.com"], pat_instagram, false, false⟩

def ex_instagram_stories : Extractor :=
  ⟨"instagram_stories", "Instagram Stories", ["instagram.com"],
   pat_instagram_stories, true, false⟩

def ex_instagram_share : Extractor :=
  ⟨"instagram_share", "Instagram Share", ["instagram.com"],
   pat_instagram_share, true, true⟩

def ex_ninegag : Extractor :=
  ⟨"ninegag", "9GAG", ["9gag.com"], pat_ninegag, false, false⟩

def ex_youtube : Extractor :=
  ⟨"youtube", "YouTube", ["youtube.com", "youtu.be"], pat_youtube, false, false⟩

def ex_pinterest : Extractor :=
  ⟨"pinterest", "Pinterest", ["pinterest.com"], pat_pinterest, false, false⟩

def ex_pinterest_short : Extractor :=
  ⟨"pinterest_short", "Pinterest (pin\\.it)", ["pin.it"],
   pat_pinterest_short, true, true⟩

def ex_reddit : Extractor :=
  ⟨"reddit", "Reddit", ["reddit.com"], pat_reddit, false, false⟩

def ex_reddit_short : Extractor :=
  ⟨"reddit_short", "Reddit (redd\\.it)", ["redd.it"], pat_reddit_short, true, true⟩

def ex_threads : Extractor :=
  ⟨"threads", "Threads", ["threads.net"], pat_threads, false, false⟩

/-- The EXTRACTORS table of registry.py, in declaration order. -/
def EXTRACTORS : List Extractor :=
  [ex_tiktok, ex_tiktok_vm, ex_soundcloud, ex_soundcloud_short, ex_twitter,
   ex_twitter_short, ex_instagram, ex_instagram_stories, ex_instagram_share,
   ex_ninegag, ex_youtube, ex_pinterest, ex_pinterest_short, ex_reddit,
   ex_reddit_short, ex_threads]

/-- The for-loop of match_extractor: first descriptor whose pattern
matches the URL. -/
def scan_extractors : List Extractor → String → Option Extractor
  | [], _ => none
  | ex :: rest, url =>
      if rmatch ex.url_pattern url then some ex else scan_extractors rest url

/-- match_extractor from registry.py. -/
def match_extractor (url : String) : Option Extractor :=
  scan_extractors EXTRACTORS url

/-- list_visible_extractors from registry.py. -/
def list_visible_extractors : List Extractor :=
  EXTRACTORS.filter (fun e => !e.hidden)

example : (match_extractor "https://www.tiktok.com/@u/video/1").map (fun e => e.id)
    = some "tiktok" := by decide

example : (match_extractor "https://vm.tiktok.com/ZMabc123/").map (fun e => e.id)
    = some "tiktok_vm" := by decide

example : match_extractor "https://example.com/foo" = none := by decide

example : (match_extractor "https://instagram.com/stories/abc").map (fun e => e.id)
    = some "instagram" := by decide

/-- ResolutionOutcome: the per-URL decision made by url_handler in
handlers.py (lines 387-408): Skip when no extractor matches the URL or the
matched extractor id is in the chat's disabled list; otherwise Proceed with
the matched extractor id and the effective URL to download. -/
inductive Outcome where
  | Skip : Outcome
  | Proceed : String → String → Outcome
deriving DecidableEq

/-- The body of the per-URL loop of url_handler in handlers.py:
ex = match_extractor(url); no match or disabled extractor id means the URL
is skipped (continue); otherwise final_url is resolve_redirect(url) when
ex.redirect is set, falling back to url itself when that call raises, and
the download step is invoked on final_url. The redirect resolver (an
external HTTP collaborator) is passed as a function returning none when it
raises. -/
def resolve (url : String) (disabled_extractors : List String)
    (redirect : String → Option String) : Outcome :=
  match match_extractor url with
  | none => Outcome.Skip
  | some ex =>
      if disabled_extractors.contains ex.id then Outcome.Skip
      else
        let final_url := if ex.redirect then (redirect url).getD url else url
        Outcome.Proceed ex.id final_url

/-- The whitelist gate of handlers.py (function with the underscore-prefixed
name at lines 41-44): empty whitelist allows everyone, otherwise the user id
must be a member. -/
def is_whitelisted (whitelist : List Int) (user_id : Int) : Bool :=
  if whitelist.isEmpty then true else whitelist.contains user_id

/-- URL_RE from handlers.py: https?://\S+ -/
def URL_RE : Re :=
  rcat [lit "http", Re.opt (lit "s"), lit "://", Re.nonspace,
        Re.star Re.nonspace]

/-- Python str.strip(): drop leading and trailing whitespace. -/
def pyStrip (s : String) : String :=
  String.mk (((s.toList.dropWhile isPySpace).reverse.dropWhile isPySpace).reverse)

/-- inline_handler from handlers.py (lines 496-521): answers with a result
article exactly when the stripped query is a nonempty URL_RE match with a
registered extractor. The handler receives the triggering user (every
InlineQuery carries from_user) and the process-wide whitelist exists, but
the body never consults either, so both parameters are unused here, exactly
as in the source. -/
def inline_handler_answers (whitelist : List Int) (user_id : Int)
    (query : String) : Bool :=
  let url := pyStrip query
  if url.toList.isEmpty || !rmatch URL_RE url then false
  else (match_extractor url).isSome

/-- cb_album_set from handlers.py (lines 278-297) combined with
set_chat_media_album_limit from queries.py: the requested value n is parsed
from the callback data; values outside the range 1..20 are rejected with no
stored change; values above a positive DEFAULT_MEDIA_ALBUM_LIMIT (the
instance-wide hard cap) are reduced to that cap; the result is stored.
Returns the stored limit after the operation. -/
def cb_album_set (requested : Int) (default_media_album_limit : Int)
    (stored : Int) : Int :=
  if requested < 1 ∨ requested > 20 then stored
  else
    if requested > default_media_album_limit ∧ default_media_album_limit > 0
    then default_media_album_limit
    else requested

/-- add_disabled_extractor from queries.py: array_append guarded by
NOT (id = ANY(disabled_extractors)), so the id is appended only when
absent. -/
def add_disabled_extractor (disabled : List String)
    (extractor_id : String) : List String :=
  if disabled.contains extractor_id then disabled else disabled ++ [extractor_id]

/-- remove_disabled_extractor from queries.py: array_remove deletes every
element equal to the id. -/
def remove_disabled_extractor (disabled : List String)
    (extractor_id : String) : List String :=
  disabled.filter (fun x => x != extractor_id)

/-- The settings row of the per-chat preferences record (queries.py
ChatRow, settings table columns). -/
structure SettingsRow where
  language : String
  captions : Bool
  silent : Bool
  nsfw : Bool
  media_album_limit : Int
  delete_links : Bool
  disabled_extractors : List String
deriving DecidableEq

/-- The upsert_settings CTE of get_or_create_chat in queries.py: a fresh
chat inserts the instance defaults; an existing row is updated with
language = CASE WHEN settings.language = 'XX' THEN EXCLUDED.language ELSE
settings.language END, where EXCLUDED.language is the instance default
language, and no other column appears in the update list. -/
def upsert_settings (existing : Option SettingsRow)
    (defaults : SettingsRow) : SettingsRow :=
  match existing with
  | none => defaults
  | some s =>
      { s with language := if s.language == "XX" then defaults.language
                           else s.language }

/-- 32-bit truncation: machine words are Nat taken modulo 2^32. -/
def u32 (n : Nat) : Nat := n % 4294967296

/-- Rotate a 32-bit word right by n bits. -/
def rotr32 (w n : Nat) : Nat :=
  (w / 2 ^ n) + (w % 2 ^ n) * 2 ^ (32 - n)

/-- Logical right shift of a 32-bit word. -/
def shr32 (w n : Nat) : Nat := w / 2 ^ n

/-- Bitwise complement of a 32-bit word. -/
def not32 (w : Nat) : Nat := w ^^^ 4294967295

/-- Three-way xor of 32-bit words. -/
def xor3 (a b c : Nat) : Nat := a ^^^ (b ^^^ c)

/-- SHA-256 Ch function. -/
def ch32 (x y z : Nat) : Nat := (x &&& y) ^^^ (not32 x &&& z)

/-- SHA-256 Maj function. -/
def maj32 (x y z : Nat) : Nat := xor3 (x &&& y) (x &&& z) (y &&& z)

/-- SHA-256 big Sigma0. -/
def bigSigma0 (x : Nat) : Nat := xor3 (rotr32 x 2) (rotr32 x 13) (rotr32 x 22)

/-- SHA-256 big Sigma1. -/
def bigSigma1 (x : Nat) : Nat := xor3 (rotr32 x 6) (rotr32 x 11) (rotr32 x 25)

/-- SHA-256 small sigma0. -/
def smallSigma0 (x : Nat) : Nat := xor3 (rotr32 x 7) (rotr32 x 18) (shr32 x 3)

/-- SHA-256 small sigma1. -/
def smallSigma1 (x : Nat) : Nat := xor3 (rotr32 x 17) (rotr32 x 19) (shr32 x 10)

/-- SHA-256 round constants (FIPS 180-4, in decimal). -/
def K256 : List Nat :=
  [1116352408, 1899447441, 3049323471, 3921009573, 961987163, 1508970993,
   2453635748, 2870763221, 3624381080, 310598401, 607225278, 1426881987,
   1925078388, 2162078206, 2614888103, 3248222580, 3835390401, 4022224774,
   264347078, 604807628, 770255983, 1249150122, 1555081692, 1996064986,
   2554220882, 2821834349, 2952996808, 3210313671, 3336571891, 3584528711,
   113926993, 338241895, 666307205, 773529912, 1294757372, 1396182291,
   1695183700, 1986661051, 2177026350, 2456956037, 2730485921, 2820302411,
   3259730800, 3345764771, 3516065817, 3600352804, 4094571909, 275423344,
   430227734, 506948616, 659060556, 883997877, 958139571, 1322822218,
   1537002063, 1747873779, 1955562222, 2024104815, 2227730452, 2361852424,
   2428436474, 2756734187, 3204031479, 3329325298]

/-- Hash state: eight 32-bit working variables. -/
structure H8 where
  a : Nat
  b : Nat
  c : Nat
  d : Nat
  e : Nat
  f : Nat
  g : Nat
  h : Nat
deriving DecidableEq

/-- SHA-256 initial hash value (FIPS 180-4, in decimal). -/
def sha256Init : H8 :=
  ⟨1779033703, 3144134277, 1013904242, 2773480762,
   1359893119, 2600822924, 528734635, 1541459225⟩

/-- One SHA-256 round with the given constant-and-schedule-word pair. -/
def sha256Round (st : H8) (kw : Nat × Nat) : H8 :=
  let t1 := u32 (st.h + bigSigma1 st.e + ch32 st.e st.f st.g + kw.1 + kw.2)
  let t2 := u32 (bigSigma0 st.a + maj32 st.a st.b st.c)
  ⟨u32 (t1 + t2), st.a, st.b, st.c, u32 (st.d + t1), st.e, st.f, st.g⟩

/-- Componentwise modular addition of hash states. -/
def addH8 (x y : H8) : H8 :=
  ⟨u32 (x.a + y.a), u32 (x.b + y.b), u32 (x.c + y.c), u32 (x.d + y.d),
   u32 (x.e + y.e), u32 (x.f + y.f), u32 (x.g + y.g), u32 (x.h + y.h)⟩

/-- Extend the 16-word message block by the given number of schedule
words. -/
def extendW : Nat → List Nat → List Nat
  | 0, ws => ws
  | k + 1, ws =>
      let i := ws.length
      let nw := u32 (smallSigma1 (ws.getD (i - 2) 0) + ws.getD (i - 7) 0 +
                     smallSigma0 (ws.getD (i - 15) 0) + ws.getD (i - 16) 0)
      extendW k (ws ++ [nw])

/-- SHA-256 compression of one 16-word block. -/
def compressBlock (st : H8) (block : List Nat) : H8 :=
  let w := extendW 48 block
  addH8 st ((K256.zip w).foldl sha256Round st)

/-- Big-endian byte rendering of a number into k bytes. -/
def beBytes (k n : Nat) : List Nat :=
  (List.range k).map (fun i => n / 2 ^ (8 * (k - 1 - i)) % 256)

/-- SHA-256 message padding: 0x80, zeros to 56 mod 64, then the bit length
as eight big-endian bytes. -/
def padBytes (msg : List Nat) : List Nat :=
  let len := msg.length
  let zeros := (64 + 56 - (len + 1) % 64) % 64
  msg ++ 0x80 :: (List.replicate zeros 0 ++ beBytes 8 (len * 8))

/-- Group bytes into big-endian 32-bit words. -/
def bytesToWords : List Nat → List Nat
  | b0 :: b1 :: b2 :: b3 :: rest =>
      (((b0 * 256 + b1) * 256 + b2) * 256 + b3) :: bytesToWords rest
  | _ => []

/-- Group words into 16-word blocks (padded input is always a multiple of
16 words; a ragged tail would become a short final block). -/
def wordsToBlocks : List Nat → List (List Nat)
  | w0 :: w1 :: w2 :: w3 :: w4 :: w5 :: w6 :: w7 ::
    w8 :: w9 :: w10 :: w11 :: w12 :: w13 :: w14 :: w15 :: rest =>
      [w0, w1, w2, w3, w4, w5, w6, w7,
       w8, w9, w10, w11, w12, w13, w14, w15] :: wordsToBlocks rest
  | [] => []
  | l => [l]

/-- SHA-256 of a byte sequence. -/
def sha256Bytes (msg : List Nat) : H8 :=
  (wordsToBlocks (bytesToWords (padBytes msg))).foldl compressBlock sha256Init

/-- One lowercase hex digit. -/
def hexDigit (n : Nat) : Char :=
  if n < 10 then Char.ofNat (48 + n) else Char.ofNat (87 + n)

/-- Eight lowercase hex digits of a 32-bit word, most significant first. -/
def hexWord32 (w : Nat) : String :=
  String.mk ((List.range 8).map (fun i => hexDigit (w / 2 ^ (4 * (7 - i)) % 16)))

/-- hexdigest() of a hash state: 64 lowercase hex characters. -/
def hexdigest (st : H8) : String :=
  hexWord32 st.a ++ hexWord32 st.b ++ hexWord32 st.c ++ hexWord32 st.d ++
  hexWord32 st.e ++ hexWord32 st.f ++ hexWord32 st.g ++ hexWord32 st.h

/-- UTF-8 encoding of one character (encode("utf-8") in Python). -/
def utf8EncodeChar (c : Char) : List Nat :=
  let n := c.toNat
  if n < 0x80 then [n]
  else if n < 0x800 then [0xc0 + n / 64, 0x80 + n % 64]
  else if n < 0x10000 then
    [0xe0 + n / 4096, 0x80 + n / 64 % 64, 0x80 + n % 64]
  else
    [0xf0 + n / 262144, 0x80 + n / 4096 % 64, 0x80 + n / 64 % 64, 0x80 + n % 64]

/-- UTF-8 bytes of a string. -/
def utf8Bytes (s : String) : List Nat :=
  s.toList.foldr (fun c acc => utf8EncodeChar c ++ acc) []

/-- The short error identifier of url_handler in handlers.py:
hashlib.sha256(error_text.encode("utf-8")).hexdigest()[:16], the slice
taken as the first 16 characters of the hex digest. -/
def err_id (error_text : String) : String :=
  String.mk ((hexdigest (sha256Bytes (utf8Bytes error_text))).toList.take 16)

example : err_id "" = "e3b0c44298fc1c14" := by decide

example : err_id "abc" = "ba7816bf8f01cfea" := by decide

/-- One row of the errors table (queries.py log_error / get_error_by_id;
last_seen timestamps are abstracted as Nat). -/
structure ErrorRow where
  id : String
  message : String
  occurrences : Nat
  last_seen : Nat
deriving DecidableEq

/-- log_error from queries.py: INSERT .. ON CONFLICT (id) DO UPDATE SET
occurrences = occurrences + 1, last_seen = NOW(). A fresh row starts with
one occurrence (the errors table schema ships with the migrations, outside
this tree); on conflict the stored message is kept and only the counter and
last_seen change. -/
def log_error (errors : List ErrorRow) (error_id message : String)
    (now : Nat) : List ErrorRow :=
  if errors.any (fun r => r.id == error_id) then
    errors.map (fun r =>
      if r.id == error_id then
        { r with occurrences := r.occurrences + 1, last_seen := now }
      else r)
  else errors ++ [⟨error_id, message, 1, now⟩]

/-- One entry dict of a yt-dlp info result (only the identity is relevant
to the embedding; each selected entry yields exactly one downloaded
file). -/
structure EntryDict where
  entry_id : String
deriving DecidableEq

/-- The info dict returned by ydl.extract_info in downloader.py: its _type
field and, for playlists, its entries list, whose elements may be None. -/
structure InfoDict where
  typ : String
  entries : List (Option EntryDict)
  info_id : String
deriving DecidableEq

/-- The entry-collection loop of _download_sync in downloader.py:
for e in info entries: if e: append it; break as soon as the collected
length reaches max_items. -/
def collect_entries : List (Option EntryDict) → Nat → List EntryDict →
    List EntryDict
  | [], _, acc => acc
  | e :: rest, max_items, acc =>
      let acc2 := match e with
        | some x => acc ++ [x]
        | none => acc
      if max_items ≤ acc2.length then acc2
      else collect_entries rest max_items acc2

/-- _download_sync from downloader.py, at the level of which entries become
downloaded files: a playlist or multi_video info dict with a nonempty
entries list is truncated by the collection loop; anything else is a single
item yielding the info dict itself as its one entry. Returns the list of
entries turned into files (one file per entry). -/
def download_files (info : InfoDict) (max_items : Nat) : List EntryDict :=
  if (info.typ == "playlist" || info.typ == "multi_video")
      && !info.entries.isEmpty then
    collect_entries info.entries max_items []
  else [⟨info.info_id⟩]

/-- The max_items defaulting of download in downloader.py:
int(max_items or settings.DEFAULT_MEDIA_ALBUM_LIMIT), so None and 0 both
fall back to the instance default. -/
def download_max_items (max_items : Option Nat) (default_limit : Nat) : Nat :=
  match max_items with
  | none => default_limit
  | some n => if n == 0 then default_limit else n

/-- download from downloader.py: the async wrapper fixes max_items and runs
_download_sync; the external yt-dlp call is the info dict input. -/
def download (info : InfoDict) (max_items : Option Nat)
    (default_limit : Nat) : List EntryDict :=
  download_files info (download_max_items max_items default_limit)

/-- The scan of match_extractor returns the first descriptor in list order
whose pattern accepts the URL: the returned descriptor matches and every
descriptor placed before it in the list does not. -/
theorem scan_extractors_first (l : List Extractor) (url : String)
    (ex : Extractor) (h : scan_extractors l url = some ex) :
    rmatch ex.url_pattern url = true ∧
    ∃ l1 l2, l = l1 ++ ex :: l2 ∧
      ∀ e ∈ l1, rmatch e.url_pattern url = false := by
  induction l with
  | nil => simp [scan_extractors] at h
  | cons a rest ih =>
      by_cases ha : rmatch a.url_pattern url
      · rw [scan_extractors, if_pos ha] at h
        obtain rfl : a = ex := by injection h
        exact ⟨ha, [], rest, rfl, by intro e he; cases he⟩
      · rw [scan_extractors, if_neg ha] at h
        obtain ⟨hm, l1, l2, hl, hall⟩ := ih h
        refine ⟨hm, a :: l1, l2, by rw [hl]; rfl, ?_⟩
        intro e he
        rcases List.mem_cons.mp he with rfl | he'
        · exact Bool.eq_false_iff.mpr ha
        · exact hall e he'

/-- C1: match_extractor performs a deterministic first-match scan over the
EXTRACTORS table: any returned descriptor has a pattern accepting the URL
and every descriptor declared before it does not. (The pairwise-disjointness
half of the claim is refuted separately: the general instagram pattern also
accepts Instagram stories and share URLs, so the result does depend on
declaration order.) -/
theorem c1_first_match (url : String) (ex : Extractor)
    (h : match_extractor url = some ex) :
    rmatch ex.url_pattern url = true ∧
    ∃ l1 l2, EXTRACTORS = l1 ++ ex :: l2 ∧
      ∀ e ∈ l1, rmatch e.url_pattern url = false :=
  scan_extractors_first EXTRACTORS url ex h

/-- C1 witness: the first-match property evaluated on a concrete short-link
URL, whose unique matching descriptor is the hidden tiktok_vm entry. -/
theorem c1_witness :
    match_extractor "https://vm.tiktok.com/ZMabc123/" = some ex_tiktok_vm ∧
    (rmatch ex_tiktok_vm.url_pattern "https://vm.tiktok.com/ZMabc123/" = true ∧
     ∃ l1 l2, EXTRACTORS = l1 ++ ex_tiktok_vm :: l2 ∧
       ∀ e ∈ l1, rmatch e.url_pattern "https://vm.tiktok.com/ZMabc123/" = false) :=
  ⟨by decide, c1_first_match "https://vm.tiktok.com/ZMabc123/" ex_tiktok_vm (by decide)⟩

/-- C1 counterexample: the registry is NOT pairwise pattern-disjoint. The
URL https://instagram.com/stories/abc is accepted by two distinct
descriptors (instagram and instagram_stories), and the first-match scan
resolves it to the earlier, more general instagram descriptor, so the
outcome depends on declaration order. -/
theorem c1_counterexample :
    (EXTRACTORS.filter
        (fun ex => rmatch ex.url_pattern "https://instagram.com/stories/abc")).map
        (fun ex => ex.id) = ["instagram", "instagram_stories"] ∧
    (match_extractor "https://instagram.com/stories/abc").map (fun ex => ex.id)
      = some "instagram" := by
  constructor
  · decide
  · decide

/-- C2: resolution yields Skip exactly when no registry pattern matches the
URL or the first matching descriptor id is in the chat's disabled set; the
redirect resolver is irrelevant to the Skip decision (the statement holds
for every redirect function). -/
theorem c2_skip_iff (url : String) (disabled : List String)
    (redirect : String → Option String) :
    resolve url disabled redirect = Outcome.Skip ↔
      match_extractor url = none ∨
        ∃ ex, match_extractor url = some ex ∧ disabled.contains ex.id = true := by
  rcases h : match_extractor url with _ | ex
  · simp [resolve, h]
  · by_cases hd : disabled.contains ex.id
    · simp [resolve, h, hd]
    · have hd' : disabled.contains ex.id = false := Bool.eq_false_iff.mpr hd
      simp [resolve, h, hd']

/-- C3: when the matched descriptor requires a redirect, its id is not
disabled and the redirect resolver succeeds, resolution proceeds with the
resolver's returned URL and the originally matched descriptor's id; the
destination URL is never re-matched against the registry. -/
theorem c3_redirect_success (url dest : String) (disabled : List String)
    (redirect : String → Option String) (ex : Extractor)
    (h1 : match_extractor url = some ex) (h2 : ex.redirect = true)
    (h3 : disabled.contains ex.id = false)
    (h4 : redirect url = some dest) :
    resolve url disabled redirect = Outcome.Proceed ex.id dest := by
  have hmem : ex.id ∉ disabled := by simpa using h3
  simp [resolve, h1, h2, hmem, h4]

/-- C3 witness: the vm.tiktok.com short link resolves to the destination
URL while keeping extractor id tiktok_vm, even though re-matching the
destination would select the distinct tiktok descriptor. -/
theorem c3_witness :
    resolve "https://vm.tiktok.com/ZMabc123/" []
        (fun u => if u == "https://vm.tiktok.com/ZMabc123/"
                  then some "https://www.tiktok.com/@user/video/12345"
                  else none)
      = Outcome.Proceed "tiktok_vm" "https://www.tiktok.com/@user/video/12345" ∧
    (match_extractor "https://www.tiktok.com/@user/video/12345").map
        (fun e => e.id) = some "tiktok" := by
  refine ⟨?_, by decide⟩
  exact c3_redirect_success "https://vm.tiktok.com/ZMabc123/"
    "https://www.tiktok.com/@user/video/12345" [] _ ex_tiktok_vm
    (by decide) (by decide) (by decide) (by decide)

/-- C4: when the matched descriptor requires a redirect, its id is not
disabled and the redirect resolver fails (modelled as returning none),
resolution still proceeds with the original URL unchanged. -/
theorem c4_redirect_failure (url : String) (disabled : List String)
    (redirect : String → Option String) (ex : Extractor)
    (h1 : match_extractor url = some ex) (h2 : ex.redirect = true)
    (h3 : disabled.contains ex.id = false)
    (h4 : redirect url = none) :
    resolve url disabled redirect = Outcome.Proceed ex.id url := by
  have hmem : ex.id ∉ disabled := by simpa using h3
  simp [resolve, h1, h2, hmem, h4]

/-- C4 witness: the vm.tiktok.com short link with an always-failing
redirect resolver still proceeds with the original URL. -/
theorem c4_witness :
    resolve "https://vm.tiktok.com/ZMabc123/" [] (fun _ => none)
      = Outcome.Proceed "tiktok_vm" "https://vm.tiktok.com/ZMabc123/" :=
  c4_redirect_failure "https://vm.tiktok.com/ZMabc123/" [] (fun _ => none)
    ex_tiktok_vm (by decide) (by decide) (by decide) rfl

/-- C5 counterexample: with instance hard cap 10, requesting 999 does not
store 10: the request is outside the fixed 1..20 range guard and is
rejected outright, leaving the previously stored limit (here 5) in place. -/
theorem c5_counterexample :
    cb_album_set 999 10 5 = 5 ∧ cb_album_set 999 10 5 ≠ 10 := by
  constructor
  · decide
  · decide

/-- C5 (amended): a requested album limit inside the fixed 1..20 range is
clamped to the positive instance hard cap, i.e. the stored limit becomes
min(requested, cap); requests outside 1..20 are rejected with no change
(see the counterexample for 999). -/
theorem c5_clamp (requested cap stored : Int) (h1 : 1 ≤ requested)
    (h2 : requested ≤ 20) (h3 : 0 < cap) :
    cb_album_set requested cap stored = min requested cap := by
  unfold cb_album_set
  rw [if_neg (by omega : ¬(requested < 1 ∨ requested > 20))]
  by_cases hc : requested > cap ∧ cap > 0
  · rw [if_pos hc]
    simp only [min_def]
    split
    · omega
    · omega
  · rw [if_neg hc]
    simp only [min_def]
    split
    · omega
    · omega

/-- C5 witness: requesting 15 with hard cap 10 stores 10 (clamped down);
requesting 3 stores 3. -/
theorem c5_witness :
    (1 : Int) ≤ 15 ∧ (15 : Int) ≤ 20 ∧ (0 : Int) < 10 ∧
    cb_album_set 15 10 7 = 10 ∧ cb_album_set 3 10 7 = 3 :=
  ⟨by decide, by decide, by decide,
   (c5_clamp 15 10 7 (by decide) (by decide) (by decide)).trans (by decide),
   (c5_clamp 3 10 7 (by decide) (by decide) (by decide)).trans (by decide)⟩

/-- C6: add_disabled_extractor is idempotent (adding the same id twice
equals adding it once, and from an empty set the result has size 1, not 2),
and remove_disabled_extractor on an absent id leaves the set unchanged. -/
theorem c6_add_remove (disabled : List String) (x : String) :
    add_disabled_extractor (add_disabled_extractor disabled x) x
      = add_disabled_extractor disabled x ∧
    (disabled.contains x = false →
      remove_disabled_extractor disabled x = disabled) ∧
    (add_disabled_extractor [] x).length = 1 := by
  refine ⟨?_, ?_, ?_⟩
  · unfold add_disabled_extractor
    by_cases h : disabled.contains x = true
    · rw [if_pos h, if_pos h]
    · rw [if_neg h]
      have hx : (disabled ++ [x]).contains x = true := by simp
      rw [if_pos hx]
  · intro h
    have hmem : x ∉ disabled := by simpa using h
    unfold remove_disabled_extractor
    rw [List.filter_eq_self]
    intro y hy
    simp only [bne_iff_ne, ne_eq]
    intro he
    exact hmem (he ▸ hy)
  · simp [add_disabled_extractor]

/-- C6 witness: adding the id b twice over the set containing only a
equals adding it once, and removing the absent id b from that set is a
no-op. -/
theorem c6_witness :
    (["a"] : List String).contains "b" = false ∧
    add_disabled_extractor (add_disabled_extractor ["a"] "b") "b"
      = add_disabled_extractor ["a"] "b" ∧
    remove_disabled_extractor ["a"] "b" = ["a"] :=
  ⟨by decide, (c6_add_remove ["a"] "b").1,
   (c6_add_remove ["a"] "b").2.1 (by decide)⟩

/-- C7: the settings upsert of get_or_create_chat never silently
overwrites a user-set language: for an existing row whose language is not
the sentinel XX the row is returned entirely unchanged (whatever the
instance defaults are); every non-language field is unchanged in all
cases; and only the XX sentinel is replaced, with the instance default
language. -/
theorem c7_language_preserved (s defaults : SettingsRow) :
    (s.language ≠ "XX" → upsert_settings (some s) defaults = s) ∧
    (upsert_settings (some s) defaults).captions = s.captions ∧
    (upsert_settings (some s) defaults).silent = s.silent ∧
    (upsert_settings (some s) defaults).nsfw = s.nsfw ∧
    (upsert_settings (some s) defaults).media_album_limit = s.media_album_limit ∧
    (upsert_settings (some s) defaults).delete_links = s.delete_links ∧
    (upsert_settings (some s) defaults).disabled_extractors
      = s.disabled_extractors ∧
    (s.language = "XX" →
      (upsert_settings (some s) defaults).language = defaults.language) := by
  refine ⟨?_, rfl, rfl, rfl, rfl, rfl, rfl, ?_⟩
  · intro h
    have hb : (s.language == "XX") = false := by simpa using h
    simp [upsert_settings, hb]
  · intro h
    simp [upsert_settings, h]

/-- C7 witness: an existing row with user-set language en is returned
unchanged by a repeated get_or_create with different instance defaults. -/
theorem c7_witness :
    (⟨"en", true, false, false, 10, false, []⟩ : SettingsRow).language ≠ "XX" ∧
    upsert_settings (some ⟨"en", true, false, false, 10, false, []⟩)
        ⟨"de", false, true, true, 5, true, ["x"]⟩
      = ⟨"en", true, false, false, 10, false, []⟩ :=
  ⟨by decide,
   (c7_language_preserved ⟨"en", true, false, false, 10, false, []⟩
     ⟨"de", false, true, true, 5, true, ["x"]⟩).1 (by decide)⟩

/-- C8: the short error identifier is a deterministic function of the
error text (equal texts give equal identifiers); logging an error whose
identifier is already present keeps the table size, increments that row's
occurrence counter and updates its last-seen timestamp while keeping its
stored message; and two logs of the same identifier starting from an empty
table collapse to a single record with counter 2. -/
theorem c8_error_dedup :
    (∀ s t : String, s = t → err_id s = err_id t) ∧
    (∀ (errors : List ErrorRow) (eid msg : String) (now : Nat),
      errors.any (fun r => r.id == eid) = true →
      (log_error errors eid msg now).length = errors.length ∧
      log_error errors eid msg now = errors.map (fun r =>
        if r.id == eid then
          { r with occurrences := r.occurrences + 1, last_seen := now }
        else r)) ∧
    (∀ (eid m1 m2 : String) (t1 t2 : Nat),
      log_error (log_error [] eid m1 t1) eid m2 t2 = [⟨eid, m1, 2, t2⟩]) := by
  refine ⟨fun s t h => by rw [h], ?_, ?_⟩
  · intro errors eid msg now h
    unfold log_error
    rw [if_pos h]
    exact ⟨by simp, rfl⟩
  · intro eid m1 m2 t1 t2
    have h1 : log_error [] eid m1 t1 = [⟨eid, m1, 1, t1⟩] := by
      unfold log_error
      rw [if_neg (by simp)]
      rfl
    rw [h1]
    unfold log_error
    rw [if_pos (by simp)]
    simp

/-- C8 witness: logging under an identifier already stored with three
occurrences keeps one record and bumps it to four with the new timestamp,
keeping the first message; the identifier function is evaluated on the
concrete text boom. -/
theorem c8_witness :
    err_id "boom" = err_id "boom" ∧
    ([⟨"81f52337ebb4cb16", "boom-message", 3, 7⟩] : List ErrorRow).any
        (fun r => r.id == "81f52337ebb4cb16") = true ∧
    log_error [⟨"81f52337ebb4cb16", "boom-message", 3, 7⟩]
        "81f52337ebb4cb16" "other" 9
      = [⟨"81f52337ebb4cb16", "boom-message", 4, 9⟩] := by
  refine ⟨c8_error_dedup.1 "boom" "boom" rfl, by decide, ?_⟩
  exact (c8_error_dedup.2.1 _ _ _ _ (by decide)).2.trans (by decide)

/-- C9 counterexample: the whitelist gate does not cover every bot
interaction. With non-empty whitelist containing only user 42, user 7 is
not whitelisted, yet the inline query handler still answers user 7's query
for a registered URL: the inline path performs no whitelist check. -/
theorem c9_counterexample :
    is_whitelisted [42] 7 = false ∧
    inline_handler_answers [42] 7 "https://www.tiktok.com/@user/video/12345"
      = true := by
  constructor
  · decide
  · decide

/-- C9 (amended): the whitelist gate used by the command and message
handlers allows everyone when the whitelist is empty and requires
membership otherwise; but the gate is not applied to inline queries: the
inline handler's answer is independent of both the whitelist and the
triggering user. -/
theorem c9_whitelist_gate (wl : List Int) (uid : Int) :
    (is_whitelisted wl uid = true ↔ wl = [] ∨ wl.contains uid = true) ∧
    (∀ (wl2 : List Int) (uid2 : Int) (q : String),
      inline_handler_answers wl uid q = inline_handler_answers wl2 uid2 q) := by
  constructor
  · cases wl with
    | nil => simp [is_whitelisted]
    | cons a l => simp [is_whitelisted]
  · intro wl2 uid2 q
    rfl

/-- The entry-collection loop of _download_sync equals taking the first
(m - length of the accumulator) non-None entries, appended to the
accumulator, as long as the accumulator is still below the limit. -/
theorem collect_entries_eq_take (es : List (Option EntryDict)) (m : Nat) :
    ∀ acc : List EntryDict, acc.length < m →
      collect_entries es m acc
        = acc ++ (es.filterMap id).take (m - acc.length) := by
  induction es with
  | nil => intro acc h; simp [collect_entries]
  | cons e rest ih =>
      intro acc h
      cases e with
      | none =>
          have hstep : collect_entries (none :: rest) m acc
              = if m ≤ acc.length then acc else collect_entries rest m acc := rfl
          rw [hstep, if_neg (by omega), ih acc h]
          simp
      | some x =>
          have hstep : collect_entries (some x :: rest) m acc
              = if m ≤ (acc ++ [x]).length then acc ++ [x]
                else collect_entries rest m (acc ++ [x]) := rfl
          rw [hstep]
          by_cases hm : m ≤ (acc ++ [x]).length
          · rw [if_pos hm]
            have hlen : (acc ++ [x]).length = acc.length + 1 := by simp
            have h1 : m - acc.length = 1 := by omega
            simp [h1]
          · rw [if_neg hm]
            have hlen : (acc ++ [x]).length = acc.length + 1 := by simp
            rw [ih (acc ++ [x]) (by omega)]
            have h2 : m - acc.length = (m - (acc.length + 1)) + 1 := by omega
            simp [hlen, h2, List.take_succ_cons, List.append_assoc]

/-- C10: with max_items = n at least 1, the download result contains at
most n files; a playlist or multi_video info dict with nonempty entries is
truncated to the first n non-None entries; and a single-item info dict
always yields exactly one file. -/
theorem c10_album_limit (info : InfoDict) (n default_limit : Nat)
    (h : 1 ≤ n) :
    (download info (some n) default_limit).length ≤ n ∧
    ((info.typ = "playlist" ∨ info.typ = "multi_video") →
      info.entries ≠ [] →
      download info (some n) default_limit
        = (info.entries.filterMap id).take n) ∧
    (info.typ ≠ "playlist" → info.typ ≠ "multi_video" →
      (download info (some n) default_limit).length = 1) := by
  have hn0 : ¬((n == 0) = true) := by
    simp
    omega
  have hmax : download_max_items (some n) default_limit = n := by
    have hstep : download_max_items (some n) default_limit
        = if (n == 0) = true then default_limit else n := rfl
    rw [hstep, if_neg hn0]
  have hie : info.entries ≠ [] → info.entries.isEmpty = false := by
    intro hne
    rcases hs : info.entries with _ | ⟨a, l⟩
    · exact absurd hs hne
    · rfl
  have hcoll : collect_entries info.entries n []
      = (info.entries.filterMap id).take n := by
    have h0 : ([] : List EntryDict).length < n := by
      simp
      omega
    have := collect_entries_eq_take info.entries n [] h0
    simpa using this
  refine ⟨?_, ?_, ?_⟩
  · unfold download download_files
    rw [hmax]
    by_cases hc : ((info.typ == "playlist" || info.typ == "multi_video")
        && !info.entries.isEmpty) = true
    · rw [if_pos hc, hcoll, List.length_take]
      omega
    · rw [if_neg hc]
      simpa using h
  · intro htyp hne
    unfold download download_files
    rw [hmax]
    have hc : ((info.typ == "playlist" || info.typ == "multi_video")
        && !info.entries.isEmpty) = true := by
      rw [hie hne]
      rcases htyp with h1 | h1 <;> simp [h1]
    rw [if_pos hc]
    exact hcoll
  · intro h1 h2
    unfold download download_files
    rw [hmax]
    have hb1 : (info.typ == "playlist") = false := by simpa using h1
    have hb2 : (info.typ == "multi_video") = false := by simpa using h2
    have hc : ¬(((info.typ == "playlist" || info.typ == "multi_video")
        && !info.entries.isEmpty) = true) := by
      simp [hb1, hb2]
    rw [if_neg hc]
    rfl

/-- C10 witness: a playlist with entries a, None, b, c and max_items 2
downloads exactly the files for a and b (first two non-None entries), and
the file count is within the limit. -/
theorem c10_witness :
    1 ≤ 2 ∧
    download ⟨"playlist", [some ⟨"a"⟩, none, some ⟨"b"⟩, some ⟨"c"⟩], "top"⟩
        (some 2) 10 = [⟨"a"⟩, ⟨"b"⟩] ∧
    (download ⟨"playlist", [some ⟨"a"⟩, none, some ⟨"b"⟩, some ⟨"c"⟩], "top"⟩
        (some 2) 10).length ≤ 2 := by
  refine ⟨by decide,
    ((c10_album_limit ⟨"playlist", [some ⟨"a"⟩, none, some ⟨"b"⟩, some ⟨"c"⟩],
        "top"⟩ 2 10 (by decide)).2.1 (Or.inl rfl) (by decide)).trans (by decide),
    (c10_album_limit ⟨"playlist", [some ⟨"a"⟩, none, some ⟨"b"⟩, some ⟨"c"⟩],
        "top"⟩ 2 10 (by decide)).1⟩

end Govd
